import Mathlib

/-!
Shallow embedding of `mcimeeg/__init__.py` (mesh display with a diverging
two-color lookup table and keyboard-driven component cycling).

Numeric values (numpy floats / VTK doubles) are modelled as rationals `ℚ`;
numpy arrays as lists of rows; the VTK lookup table as a structure whose
table is a function from entry index to an RGBA color, written by
`Function.update` exactly in the order the source's loops execute
`SetTableValue`.
-/

namespace Mcimeeg

/-- An RGBA color entry of the VTK lookup table (`SetTableValue` arguments). -/
structure Color where
  r : ℚ
  g : ℚ
  b : ℚ
  a : ℚ
deriving DecidableEq, Repr

/-- Model of `vtk.vtkLookupTable` as configured by `_two_color_lut`:
`SetNumberOfColors`, `SetRange`, the 512 `SetTableValue` writes, and the
vector component later set by the key callback. -/
structure LookupTable where
  numberOfColors : Nat
  rangeMin : ℚ
  rangeMax : ℚ
  table : Nat → Color
  vectorComponent : Int

/-- `lut.SetVectorComponent(c)`. -/
def LookupTable.setVectorComponent (l : LookupTable) (c : Int) : LookupTable :=
  { l with vectorComponent := c }

/-- Color written by the first loop of `_two_color_lut` at index `i`
(`for i in reversed(range(256))`):
`(middle - start) * i / 255.0 + start` per channel, alpha `1.0`. -/
def lowerEntry (start middle : ℚ × ℚ × ℚ) (i : Nat) : Color :=
  ⟨(middle.1 - start.1) * i / 255 + start.1,
   (middle.2.1 - start.2.1) * i / 255 + start.2.1,
   (middle.2.2 - start.2.2) * i / 255 + start.2.2,
   1⟩

/-- Color written by the second loop of `_two_color_lut` at index `256 + i`
(`for i in range(256)`):
`(middle - end) * (255 - i) / 255.0 + end` per channel, alpha `1.0`. -/
def upperEntry (middle end_ : ℚ × ℚ × ℚ) (i : Nat) : Color :=
  ⟨(middle.1 - end_.1) * ((255 - i : ℕ) : ℚ) / 255 + end_.1,
   (middle.2.1 - end_.2.1) * ((255 - i : ℕ) : ℚ) / 255 + end_.2.1,
   (middle.2.2 - end_.2.2) * ((255 - i : ℕ) : ℚ) / 255 + end_.2.2,
   1⟩

/-- `_two_color_lut(minimum, maximum, start, middle, end)`.
`none` for an anchor means the Python default argument `None`, resolved to
blue `[0,0,1]`, light gray `[0.9,0.9,0.9]`, green `[0,1,0]` respectively.
`0.5` of the source is the rational `1/2`.  The table starts from VTK's
initial state (modelled as an arbitrary constant entry) and is written by
the two loops in source order. -/
def two_color_lut (minimum maximum : ℚ)
    (start0 middle0 end0 : Option (ℚ × ℚ × ℚ)) : LookupTable :=
  let start := start0.getD (0, 0, 1)
  let middle := middle0.getD (9/10, 9/10, 9/10)
  let end_ := end0.getD (0, 1, 0)
  let table0 : Nat → Color := fun _ => ⟨0, 0, 0, 1⟩
  let table1 := ((List.range 256).reverse).foldl
    (fun t i => Function.update t i (lowerEntry start middle i)) table0
  let table2 := (List.range 256).foldl
    (fun t i => Function.update t (256 + i) (upperEntry middle end_ i)) table1
  { numberOfColors := 512
    rangeMin := minimum * (1/2)
    rangeMax := maximum * (1/2)
    table := table2
    vectorComponent := 0 }

/-- A fold of table writes leaves untouched every index no write targets. -/
theorem foldl_update_of_not_mem {α : Type} (g : ℕ → ℕ) (f : ℕ → α) :
    ∀ (l : List ℕ) (t : ℕ → α) (j : ℕ), (∀ i ∈ l, g i ≠ j) →
      (l.foldl (fun t i => Function.update t (g i) (f i)) t) j = t j := by
  intro l
  induction l with
  | nil => intro t j _; rfl
  | cons hd tl ih =>
      intro t j h
      simp only [List.foldl_cons]
      rw [ih _ j fun i hi => h i (List.mem_cons_of_mem hd hi)]
      exact Function.update_noteq (Ne.symm (h hd (List.mem_cons_self hd tl))) _ t

/-- A fold of table writes at pairwise-distinct indices stores the written
value at each targeted index. -/
theorem foldl_update_of_mem {α : Type} (g : ℕ → ℕ) (f : ℕ → α)
    (hg : Function.Injective g) :
    ∀ (l : List ℕ) (t : ℕ → α) (i : ℕ), l.Nodup → i ∈ l →
      (l.foldl (fun t i => Function.update t (g i) (f i)) t) (g i) = f i := by
  intro l
  induction l with
  | nil => intro t i _ hi; exact absurd hi (List.not_mem_nil i)
  | cons hd tl ih =>
      intro t i hnd hi
      simp only [List.foldl_cons]
      rcases List.mem_cons.mp hi with h | h
      · subst h
        rw [foldl_update_of_not_mem g f tl _ (g i)]
        · exact Function.update_same (g i) (f i) t
        · intro i' hi' he
          exact (List.nodup_cons.mp hnd).1 ((hg he) ▸ hi')
      · exact ih _ i (List.nodup_cons.mp hnd).2 h

/-- Entries `0..255` of the built table come from the first loop. -/
theorem two_color_lut_table_lower (minimum maximum : ℚ)
    (s0 m0 e0 : Option (ℚ × ℚ × ℚ)) (i : ℕ) (h : i < 256) :
    (two_color_lut minimum maximum s0 m0 e0).table i =
      lowerEntry (s0.getD (0, 0, 1)) (m0.getD (9/10, 9/10, 9/10)) i := by
  simp only [two_color_lut]
  rw [foldl_update_of_not_mem (fun k => 256 + k) _ _ _ i
    (fun k _ he => by have he' : 256 + k = i := he; omega)]
  have := foldl_update_of_mem (fun k => k)
    (lowerEntry (s0.getD (0, 0, 1)) (m0.getD (9/10, 9/10, 9/10)))
    (fun a b hab => hab) ((List.range 256).reverse) (fun _ => ⟨0, 0, 0, 1⟩) i
    (List.nodup_reverse.mpr (List.nodup_range 256))
    (List.mem_reverse.mpr (List.mem_range.mpr h))
  exact this

/-- Entries `256..511` of the built table come from the second loop. -/
theorem two_color_lut_table_upper (minimum maximum : ℚ)
    (s0 m0 e0 : Option (ℚ × ℚ × ℚ)) (i : ℕ) (h : i < 256) :
    (two_color_lut minimum maximum s0 m0 e0).table (256 + i) =
      upperEntry (m0.getD (9/10, 9/10, 9/10)) (e0.getD (0, 1, 0)) i := by
  simp only [two_color_lut]
  exact foldl_update_of_mem (fun k => 256 + k) _
    (fun a b hab => Nat.add_left_cancel hab) (List.range 256) _ i
    (List.nodup_range 256) (List.mem_range.mpr h)

/-- `data.shape[1]` for a numpy array modelled as a list of rows
(all rows of a numpy 2-D array have the same length). -/
def shape1 (data : List (List ℚ)) : Nat := (data.headD []).length

/-- `np.abs(data).max()`: the greatest absolute value over all entries.
Modelled with a fold starting at `0`, which agrees with numpy on every
nonempty array since absolute values are nonnegative. -/
def maxAbs (data : List (List ℚ)) : ℚ :=
  ((data.map (fun row => row.map (fun x => |x|))).flatten).foldl max 0

/-- `np.clip(x, lo, hi)` on Python integers (for `lo ≤ hi`). -/
def np_clip (x lo hi : Int) : Int := min (max x lo) hi

/-- The `vtk_color_array` built by `display_mesh` when `vertex_data` is
given: `SetName('color')`, `SetNumberOfComponents(data.shape[1])`, and one
`InsertNextTuple(intensity)` per row. -/
structure ColorArray where
  name : String
  numberOfComponents : Nat
  tuples : List (List ℚ)
deriving DecidableEq, Repr

/-- The state `display_mesh` has constructed by the time the interactive
loop starts: the vtk points and cells, the optional color array, the
closure variables `data` and `vtk_lut` (assigned only inside the
`if vertex_data is not None` branch, hence `Option`), and the closure
variable `current_component`. -/
structure Session where
  points : List (ℚ × ℚ × ℚ)
  cells : List (Nat × Nat × Nat)
  colorArray : Option ColorArray
  data : Option (List (List ℚ))
  vtk_lut : Option LookupTable
  current_component : Int

/-- `display_mesh(vertices, triangles, vertex_data)` up to the start of the
interactive loop.  Note the source performs no shape validation: the color
array and lookup table are built from `vertex_data` alone, whatever the
vertex count. -/
def display_mesh (vertices : List (ℚ × ℚ × ℚ)) (triangles : List (Nat × Nat × Nat))
    (vertex_data : Option (List (List ℚ))) : Session :=
  match vertex_data with
  | some vd =>
      let data := vd
      let colorArray : ColorArray :=
        { name := "color", numberOfComponents := shape1 data, tuples := data }
      let m := maxAbs data
      let m := if m = 0 then 1 else m
      let vtk_lut := two_color_lut (-m) m (some (1, 1/2, 1/2)) none none
      { points := vertices, cells := triangles, colorArray := some colorArray,
        data := some data, vtk_lut := some vtk_lut, current_component := 0 }
  | none =>
      { points := vertices, cells := triangles, colorArray := none,
        data := none, vtk_lut := none, current_component := 0 }

/-- Accessing a closure variable that was never assigned raises `NameError`
in Python. -/
inductive PyError where
  | nameError
deriving DecidableEq, Repr

/-- Observable outcome of one `_key_press` callback invocation. -/
structure CallbackResult where
  current_component : Int
  vtk_lut : Option LookupTable
  finalized : Bool
  terminated : Bool
  rendered : Bool

/-- The `_key_press` callback.  `data` and `vtk_lut` are the closure
variables (unassigned — `none` — when `display_mesh` was called without
`vertex_data`; touching them then raises `NameError`).  Branches:
`'Right'` and `'Left'` clip `current_component ± 1` to `[0, data.shape[1]]`
and call `vtk_lut.SetVectorComponent`; `'q'` finalizes the window and
terminates the app.  `interactor.Render()` runs at the end of the callback
on every key, outside all branches. -/
def key_press (data : Option (List (List ℚ))) (vtk_lut : Option LookupTable)
    (current_component : Int) (key : String) : Except PyError CallbackResult :=
  if key = "Right" then
    match data, vtk_lut with
    | some d, some lut =>
        let c := np_clip (current_component + 1) 0 (shape1 d)
        .ok { current_component := c, vtk_lut := some (lut.setVectorComponent c),
              finalized := false, terminated := false, rendered := true }
    | _, _ => .error .nameError
  else if key = "Left" then
    match data, vtk_lut with
    | some d, some lut =>
        let c := np_clip (current_component - 1) 0 (shape1 d)
        .ok { current_component := c, vtk_lut := some (lut.setVectorComponent c),
              finalized := false, terminated := false, rendered := true }
    | _, _ => .error .nameError
  else if key = "q" then
    .ok { current_component := current_component, vtk_lut := vtk_lut,
          finalized := true, terminated := true, rendered := true }
  else
    .ok { current_component := current_component, vtk_lut := vtk_lut,
          finalized := false, terminated := false, rendered := true }

/-- One key event of a session whose `data` closure variable is assigned:
the callback updates `current_component` and `vtk_lut` (an uncaught
exception would leave them unchanged). -/
def session_step (data : List (List ℚ)) (s : Int × Option LookupTable)
    (key : String) : Int × Option LookupTable :=
  match key_press (some data) s.2 s.1 key with
  | .ok r => (r.current_component, r.vtk_lut)
  | .error _ => s

/-- The component-index state over a finite sequence of key events,
starting from `current_component = 0` as `display_mesh` initializes it. -/
def run_keys (data : List (List ℚ)) (lut : LookupTable)
    (keys : List String) : Int × Option LookupTable :=
  keys.foldl (session_step data) (0, some lut)

/-- Bounds of `np.clip` for `lo ≤ hi`. -/
theorem np_clip_bounds (x lo hi : Int) (h : lo ≤ hi) :
    lo ≤ np_clip x lo hi ∧ np_clip x lo hi ≤ hi :=
  ⟨le_min (le_max_right x lo) h, min_le_right _ _⟩

/-- One key event keeps the component index within `[0, shape1 data]`. -/
theorem session_step_bounds (data : List (List ℚ)) (lut : Option LookupTable)
    (cur : Int) (key : String) (h0 : 0 ≤ cur) (h1 : cur ≤ (shape1 data : Int)) :
    0 ≤ (session_step data (cur, lut) key).1 ∧
      (session_step data (cur, lut) key).1 ≤ (shape1 data : Int) := by
  have hC : (0 : Int) ≤ (shape1 data : Int) := Int.natCast_nonneg _
  simp only [session_step, key_press]
  by_cases hR : key = "Right"
  · rw [if_pos hR]
    cases lut with
    | some l => exact np_clip_bounds (cur + 1) 0 _ hC
    | none => exact ⟨h0, h1⟩
  · rw [if_neg hR]
    by_cases hL : key = "Left"
    · rw [if_pos hL]
      cases lut with
      | some l => exact np_clip_bounds (cur - 1) 0 _ hC
      | none => exact ⟨h0, h1⟩
    · rw [if_neg hL]
      by_cases hq : key = "q"
      · rw [if_pos hq]; exact ⟨h0, h1⟩
      · rw [if_neg hq]; exact ⟨h0, h1⟩

/-- The fold of key events preserves the component-index bounds. -/
theorem run_keys_bounds_aux (data : List (List ℚ)) (keys : List String) :
    ∀ s : Int × Option LookupTable, 0 ≤ s.1 → s.1 ≤ (shape1 data : Int) →
      0 ≤ (keys.foldl (session_step data) s).1 ∧
        (keys.foldl (session_step data) s).1 ≤ (shape1 data : Int) := by
  induction keys with
  | nil => intro s h0 h1; exact ⟨h0, h1⟩
  | cons k ks ih =>
      intro s h0 h1
      obtain ⟨cur, lut⟩ := s
      simp only [List.foldl_cons]
      exact ih _ (session_step_bounds data lut cur k h0 h1).1
        (session_step_bounds data lut cur k h0 h1).2

/-- C1 counterexample: calling `display_mesh` with one vertex but two rows
of `vertex_data` (a shape mismatch) does not fail; the color array and the
lookup table are fully built from the mismatched data. -/
theorem C1_counterexample :
    [[(1 : ℚ)], [2]].length ≠ [((0 : ℚ), (0 : ℚ), (0 : ℚ))].length ∧
    (display_mesh [(0, 0, 0)] [] (some [[1], [2]])).colorArray =
      some { name := "color", numberOfComponents := 1, tuples := [[1], [2]] } ∧
    ((display_mesh [(0, 0, 0)] [] (some [[1], [2]])).vtk_lut).isSome = true :=
  ⟨by decide, rfl, rfl⟩

/-- C1 (amended): `display_mesh` performs no shape validation at all — for
every `vertex_data`, whatever its row count relative to the vertex count,
the call succeeds and builds the color array (holding exactly the rows of
`vertex_data`) and the lookup table; no ShapeMismatch failure exists in the
code. -/
theorem C1_no_shape_validation (v : List (ℚ × ℚ × ℚ))
    (t : List (Nat × Nat × Nat)) (d : List (List ℚ)) :
    (display_mesh v t (some d)).colorArray =
      some { name := "color", numberOfComponents := shape1 d, tuples := d } ∧
    ((display_mesh v t (some d)).vtk_lut).isSome = true :=
  ⟨rfl, rfl⟩

/-- C2: a `Right` key event maps the component index to
`clamp(index + 1, 0, column_count)` and a `Left` event to
`clamp(index - 1, 0, column_count)` (upper bound the column count itself);
in particular with 3 columns, `Left` from 0 stays at 0 and `Right` from 2
reaches 3 (not 2). -/
theorem C2_arrow_key_clamp (d : List (List ℚ)) (lut : LookupTable) (idx : Int) :
    (key_press (some d) (some lut) idx "Right").map (fun r => r.current_component) =
      .ok (min (max (idx + 1) 0) (shape1 d : Int)) ∧
    (key_press (some d) (some lut) idx "Left").map (fun r => r.current_component) =
      .ok (min (max (idx - 1) 0) (shape1 d : Int)) ∧
    (key_press (some [[0, 0, 0]]) (some lut) 0 "Left").map (fun r => r.current_component) =
      .ok 0 ∧
    (key_press (some [[0, 0, 0]]) (some lut) 2 "Right").map (fun r => r.current_component) =
      .ok 3 :=
  ⟨rfl, rfl, rfl, rfl⟩

/-- C3: the lookup table's value-to-index mapping domain is
`[minimum * 0.5, maximum * 0.5]`, half the requested span. -/
theorem C3_halved_domain (minimum maximum : ℚ) (s0 m0 e0 : Option (ℚ × ℚ × ℚ))
    (h : minimum < maximum) :
    (two_color_lut minimum maximum s0 m0 e0).rangeMin = minimum * (1/2) ∧
    (two_color_lut minimum maximum s0 m0 e0).rangeMax = maximum * (1/2) :=
  ⟨rfl, rfl⟩

/-- Witness for C3 at `minimum = -1`, `maximum = 1`. -/
theorem C3_halved_domain_witness :
    ((-1 : ℚ) < 1) ∧
    ((two_color_lut (-1) 1 none none none).rangeMin = (-1) * (1/2) ∧
     (two_color_lut (-1) 1 none none none).rangeMax = 1 * (1/2)) :=
  ⟨by decide, C3_halved_domain (-1) 1 none none none (by decide)⟩

/-- C4 counterexample: for the unrecognized key `a` the component index is
left unchanged, but the callback still triggers a repaint
(`interactor.Render()` runs outside all key branches), contradicting the
claim that no repaint occurs. -/
theorem C4_counterexample :
    (key_press (some [[0]]) (some (two_color_lut (-1) 1 none none none)) 0 "a").map
      (fun r => (r.current_component, r.rendered)) = .ok (0, true) :=
  rfl

/-- C4 (amended): for every key other than `Right`, `Left`, `q`, the
callback leaves the component index and the lookup table unchanged and
performs no finalize/terminate, but it does trigger a repaint, since
`interactor.Render()` is executed unconditionally at the end of the
callback. -/
theorem C4_other_keys (data : Option (List (List ℚ))) (lut : Option LookupTable)
    (cur : Int) (key : String)
    (h1 : key ≠ "Right") (h2 : key ≠ "Left") (h3 : key ≠ "q") :
    key_press data lut cur key =
      .ok { current_component := cur, vtk_lut := lut,
            finalized := false, terminated := false, rendered := true } := by
  simp only [key_press]
  rw [if_neg h1, if_neg h2, if_neg h3]

/-- Witness for C4 (amended) at key `a`. -/
theorem C4_other_keys_witness :
    ("a" ≠ "Right" ∧ "a" ≠ "Left" ∧ "a" ≠ "q") ∧
    key_press none none 0 "a" =
      .ok { current_component := 0, vtk_lut := none,
            finalized := false, terminated := false, rendered := true } :=
  ⟨⟨by decide, by decide, by decide⟩,
   C4_other_keys none none 0 "a" (by decide) (by decide) (by decide)⟩

/-- C5: the built table has 512 entries and exact boundary entries:
entry 0 is the start color, entries 255 and 256 the middle color, and
entry 511 the end color. -/
theorem C5_boundary_exact (minimum maximum : ℚ) (s m e : ℚ × ℚ × ℚ)
    (h : minimum < maximum) :
    (two_color_lut minimum maximum (some s) (some m) (some e)).numberOfColors = 512 ∧
    (two_color_lut minimum maximum (some s) (some m) (some e)).table 0 =
      ⟨s.1, s.2.1, s.2.2, 1⟩ ∧
    (two_color_lut minimum maximum (some s) (some m) (some e)).table 255 =
      ⟨m.1, m.2.1, m.2.2, 1⟩ ∧
    (two_color_lut minimum maximum (some s) (some m) (some e)).table 256 =
      ⟨m.1, m.2.1, m.2.2, 1⟩ ∧
    (two_color_lut minimum maximum (some s) (some m) (some e)).table 511 =
      ⟨e.1, e.2.1, e.2.2, 1⟩ := by
  refine ⟨rfl, ?_, ?_, ?_, ?_⟩
  · rw [two_color_lut_table_lower minimum maximum _ _ _ 0 (by norm_num)]
    simp only [Option.getD_some, lowerEntry, Color.mk.injEq, Nat.cast_zero]
    refine ⟨by ring, by ring, by ring, trivial⟩
  · rw [two_color_lut_table_lower minimum maximum _ _ _ 255 (by norm_num)]
    simp only [Option.getD_some, lowerEntry, Color.mk.injEq, Nat.cast_ofNat]
    refine ⟨by ring, by ring, by ring, trivial⟩
  · rw [show (256 : ℕ) = 256 + 0 from rfl,
      two_color_lut_table_upper minimum maximum _ _ _ 0 (by norm_num)]
    simp only [Option.getD_some, upperEntry, Color.mk.injEq, Nat.sub_zero,
      Nat.cast_ofNat]
    refine ⟨by ring, by ring, by ring, trivial⟩
  · rw [show (511 : ℕ) = 256 + 255 from rfl,
      two_color_lut_table_upper minimum maximum _ _ _ 255 (by norm_num)]
    simp only [Option.getD_some, upperEntry, Color.mk.injEq, Nat.sub_self,
      Nat.cast_zero]
    refine ⟨by ring, by ring, by ring, trivial⟩

/-- Witness for C5 at `minimum = -1`, `maximum = 1` and the default anchor
colors. -/
theorem C5_boundary_exact_witness :
    ((-1 : ℚ) < 1) ∧
    ((two_color_lut (-1) 1 (some (0, 0, 1)) (some (9/10, 9/10, 9/10))
        (some (0, 1, 0))).numberOfColors = 512 ∧
     (two_color_lut (-1) 1 (some (0, 0, 1)) (some (9/10, 9/10, 9/10))
        (some (0, 1, 0))).table 0 = ⟨0, 0, 1, 1⟩ ∧
     (two_color_lut (-1) 1 (some (0, 0, 1)) (some (9/10, 9/10, 9/10))
        (some (0, 1, 0))).table 255 = ⟨9/10, 9/10, 9/10, 1⟩ ∧
     (two_color_lut (-1) 1 (some (0, 0, 1)) (some (9/10, 9/10, 9/10))
        (some (0, 1, 0))).table 256 = ⟨9/10, 9/10, 9/10, 1⟩ ∧
     (two_color_lut (-1) 1 (some (0, 0, 1)) (some (9/10, 9/10, 9/10))
        (some (0, 1, 0))).table 511 = ⟨0, 1, 0, 1⟩) :=
  ⟨by decide, C5_boundary_exact (-1) 1 (0, 0, 1) (9/10, 9/10, 9/10) (0, 1, 0)
    (by decide)⟩

/-- C6: for `i < 256`, lower-half entry `i` is the interpolation
`(middle - start) * i / 255 + start` per channel and upper-half entry
`256 + i` is `(middle - end) * (255 - i) / 255 + end` per channel (reversed
direction); every entry's alpha is `1`. -/
theorem C6_interpolation (minimum maximum : ℚ) (s m e : ℚ × ℚ × ℚ)
    (i : ℕ) (h : i < 256) :
    (two_color_lut minimum maximum (some s) (some m) (some e)).table i =
      ⟨(m.1 - s.1) * i / 255 + s.1, (m.2.1 - s.2.1) * i / 255 + s.2.1,
       (m.2.2 - s.2.2) * i / 255 + s.2.2, 1⟩ ∧
    (two_color_lut minimum maximum (some s) (some m) (some e)).table (256 + i) =
      ⟨(m.1 - e.1) * (255 - (i : ℚ)) / 255 + e.1,
       (m.2.1 - e.2.1) * (255 - (i : ℚ)) / 255 + e.2.1,
       (m.2.2 - e.2.2) * (255 - (i : ℚ)) / 255 + e.2.2, 1⟩ := by
  constructor
  · rw [two_color_lut_table_lower minimum maximum _ _ _ i h]
    rfl
  · rw [two_color_lut_table_upper minimum maximum _ _ _ i h]
    simp only [Option.getD_some, upperEntry,
      Nat.cast_sub (by omega : i ≤ 255), Nat.cast_ofNat]

/-- Witness for C6 at `i = 0` with the default anchor colors. -/
theorem C6_interpolation_witness :
    0 < 256 ∧
    ((two_color_lut (-1) 1 (some (0, 0, 1)) (some (9/10, 9/10, 9/10))
        (some (0, 1, 0))).table 0 =
      ⟨(9/10 - 0) * ((0 : ℕ) : ℚ) / 255 + 0, (9/10 - 0) * ((0 : ℕ) : ℚ) / 255 + 0,
       (9/10 - 1) * ((0 : ℕ) : ℚ) / 255 + 1, 1⟩ ∧
     (two_color_lut (-1) 1 (some (0, 0, 1)) (some (9/10, 9/10, 9/10))
        (some (0, 1, 0))).table (256 + 0) =
      ⟨(9/10 - 0) * (255 - ((0 : ℕ) : ℚ)) / 255 + 0,
       (9/10 - 1) * (255 - ((0 : ℕ) : ℚ)) / 255 + 1,
       (9/10 - 0) * (255 - ((0 : ℕ) : ℚ)) / 255 + 0, 1⟩) :=
  ⟨by decide, C6_interpolation (-1) 1 (0, 0, 1) (9/10, 9/10, 9/10) (0, 1, 0) 0
    (by decide)⟩

/-- C7: when the maximum absolute value of `vertex_data` is 0, the lookup
table is built with the symmetric range ±1; otherwise with
±max(abs(vertex_data)). -/
theorem C7_degenerate_range (v : List (ℚ × ℚ × ℚ)) (t : List (Nat × Nat × Nat))
    (vd : List (List ℚ)) :
    (maxAbs vd = 0 →
      (display_mesh v t (some vd)).vtk_lut =
        some (two_color_lut (-1) 1 (some (1, 1/2, 1/2)) none none)) ∧
    (maxAbs vd ≠ 0 →
      (display_mesh v t (some vd)).vtk_lut =
        some (two_color_lut (-(maxAbs vd)) (maxAbs vd)
          (some (1, 1/2, 1/2)) none none)) := by
  constructor
  · intro h
    simp only [display_mesh, if_pos h]
  · intro h
    simp only [display_mesh, if_neg h]

/-- Witness for C7 at the all-zero data `[[0]]` and at the data `[[2]]`. -/
theorem C7_degenerate_range_witness :
    (maxAbs [[0]] = 0 ∧
      (display_mesh [] [] (some [[0]])).vtk_lut =
        some (two_color_lut (-1) 1 (some (1, 1/2, 1/2)) none none)) ∧
    (maxAbs [[2]] ≠ 0 ∧
      (display_mesh [] [] (some [[2]])).vtk_lut =
        some (two_color_lut (-(maxAbs [[2]])) (maxAbs [[2]])
          (some (1, 1/2, 1/2)) none none)) :=
  ⟨⟨by decide, (C7_degenerate_range [] [] [[0]]).1 (by decide)⟩,
   ⟨by decide, (C7_degenerate_range [] [] [[2]]).2 (by decide)⟩⟩

/-- C8: the component index starts at 0 and, after every finite sequence of
key events, remains an integer within `[0, column_count]` (the source's
clamp interval, whose upper bound is the column count itself — the flagged
off-by-one relative to `column_count - 1`). -/
theorem C8_component_index_invariant (data : List (List ℚ)) (lut : LookupTable)
    (keys : List String) :
    (run_keys data lut []).1 = 0 ∧
    0 ≤ (run_keys data lut keys).1 ∧
    (run_keys data lut keys).1 ≤ (shape1 data : Int) :=
  ⟨rfl, run_keys_bounds_aux data keys (0, some lut) le_rfl (Int.natCast_nonneg _)⟩

/-- C9: when `display_mesh` is called without `vertex_data`, the closure
variables `data` and `vtk_lut` are never assigned, so a `Right` or `Left`
key event raises `NameError` inside the callback. -/
theorem C9_nameError_without_vertex_data (v : List (ℚ × ℚ × ℚ))
    (t : List (Nat × Nat × Nat)) (cur : Int) :
    key_press (display_mesh v t none).data (display_mesh v t none).vtk_lut
      cur "Right" = .error .nameError ∧
    key_press (display_mesh v t none).data (display_mesh v t none).vtk_lut
      cur "Left" = .error .nameError :=
  ⟨rfl, rfl⟩

/-- Boundary entries of the lookup table `display_mesh` builds: start
anchor `(1, 0.5, 0.5)` at entry 0, default middle `(0.9, 0.9, 0.9)` at
entry 255, default end `(0, 1, 0)` at entry 511. -/
theorem two_color_lut_display_entries (minimum maximum : ℚ) :
    (two_color_lut minimum maximum (some (1, 1/2, 1/2)) none none).table 0 =
      ⟨1, 1/2, 1/2, 1⟩ ∧
    (two_color_lut minimum maximum (some (1, 1/2, 1/2)) none none).table 255 =
      ⟨9/10, 9/10, 9/10, 1⟩ ∧
    (two_color_lut minimum maximum (some (1, 1/2, 1/2)) none none).table 511 =
      ⟨0, 1, 0, 1⟩ := by
  refine ⟨?_, ?_, ?_⟩
  · rw [two_color_lut_table_lower minimum maximum _ _ _ 0 (by norm_num)]
    simp only [Option.getD_some, Option.getD_none, lowerEntry, Color.mk.injEq,
      Nat.cast_zero]
    norm_num
  · rw [two_color_lut_table_lower minimum maximum _ _ _ 255 (by norm_num)]
    simp only [Option.getD_some, Option.getD_none, lowerEntry, Color.mk.injEq,
      Nat.cast_ofNat]
    norm_num
  · rw [show (511 : ℕ) = 256 + 255 from rfl,
      two_color_lut_table_upper minimum maximum _ _ _ 255 (by norm_num)]
    simp only [Option.getD_some, Option.getD_none, upperEntry, Color.mk.injEq,
      Nat.sub_self, Nat.cast_zero]
    norm_num

/-- C10: when `vertex_data` is provided, the lookup table built by
`display_mesh` has its start (most-negative) anchor fixed to
`(1.0, 0.5, 0.5)` while the middle and end anchors keep their defaults
`(0.9, 0.9, 0.9)` and `(0.0, 1.0, 0.0)`, as read off at the exact boundary
entries 0, 255 and 511. -/
theorem C10_start_anchor_override (v : List (ℚ × ℚ × ℚ))
    (t : List (Nat × Nat × Nat)) (vd : List (List ℚ)) :
    ((display_mesh v t (some vd)).vtk_lut).map
      (fun l => (l.table 0, l.table 255, l.table 511)) =
      some (⟨1, 1/2, 1/2, 1⟩, ⟨9/10, 9/10, 9/10, 1⟩, ⟨0, 1, 0, 1⟩) := by
  simp only [display_mesh, Option.map_some']
  rw [(two_color_lut_display_entries _ _).1, (two_color_lut_display_entries _ _).2.1,
    (two_color_lut_display_entries _ _).2.2]

end Mcimeeg
